import Mathlib

/-!
Verification of the reversible-action controller of `src/stealth_tool.py`.

The persisted record (`state.json`) is a JSON object whose keys are
`networkmanager_stopped`, `monitor_interface`, `original_interface`,
`monitor_left`, `original_macs`, `spoofed_macs`.  We embed it as a
structure of `Option` fields (`none` = key absent), with the two MAC maps
as association lists mirroring Python dicts.

External collaborators (command execution via `run`, interface inventory
via `iw dev` / `ip link`, the random generator, the JSON library) are
passed in as oracle parameters: a controller operation takes the parsed
on-disk record (`Option StealthState`, `none` = no readable record), the
oracle outcomes, and returns the record left on disk afterwards
(`none` = record deleted by `clear_state`).  Parameters such as
`modeSwitchOk` record the success of a command whose result the Python
code discards; they are therefore unused in the body, exactly as in the
source.
-/

set_option linter.unusedVariables false

/-- Association-list lookup, mirroring Python `d[k]` / `k in d` on the
string-to-string dicts `original_macs` and `spoofed_macs`. -/
def lookupKey (k : String) : List (String × String) → Option String
  | [] => none
  | (k1, v1) :: rest => if k1 = k then some v1 else lookupKey k rest

/-- Association-list update, mirroring Python `d[k] = v`. -/
def setKey (k v : String) : List (String × String) → List (String × String)
  | [] => [(k, v)]
  | (k1, v1) :: rest => if k1 = k then (k1, v) :: rest else (k1, v1) :: setKey k v rest

/-- The persisted record of `stealth_tool.py` (`state.json`): each field is
`some _` exactly when the corresponding key is present in the JSON object. -/
structure StealthState where
  networkmanager_stopped : Option Bool := none
  monitor_interface : Option String := none
  original_interface : Option String := none
  monitor_left : Option Bool := none
  original_macs : Option (List (String × String)) := none
  spoofed_macs : Option (List (String × String)) := none
deriving DecidableEq, Repr

/-- Python truthiness of `state.get(key)` for a string-valued key:
falsy when the key is absent or the value is the empty string. -/
def strTruthy : Option String → Bool
  | none => false
  | some s => s != ""

/-- Python `not state`: the dict is empty, i.e. no key is present. -/
def StealthState.isEmpty (s : StealthState) : Bool :=
  s.networkmanager_stopped.isNone && s.monitor_interface.isNone &&
  s.original_interface.isNone && s.monitor_left.isNone &&
  s.original_macs.isNone && s.spoofed_macs.isNone

/-- The record a controller operation works on: `load_state()` yields the
parsed record when one is readable and the empty dict otherwise. -/
def loadRec (disk : Option StealthState) : StealthState :=
  disk.getD {}

/-- The local list `mac` of `generate_random_mac`: first octet is the
literal `0x02`, the other five are `random.randint(0x00, 0xff)` draws
(modelled as arbitrary naturals reduced mod 256). -/
def mac_bytes (rand : Fin 5 → Nat) : List Nat :=
  [0x02, rand 0 % 256, rand 1 % 256, rand 2 % 256, rand 3 % 256, rand 4 % 256]

/-- Lower-case hex digit, as produced by Python format `x`. -/
def hexDigitChar (n : Nat) : Char :=
  if n < 10 then Char.ofNat (48 + n) else Char.ofNat (87 + n)

/-- Python format specifier `02x`: two lower-case hex digits. -/
def hex2 (n : Nat) : String :=
  String.mk [hexDigitChar (n / 16 % 16), hexDigitChar (n % 16)]

/-- `generate_random_mac` of `stealth_tool.py`: colon-joined `02x`
renderings of `mac_bytes`. -/
def generate_random_mac (rand : Fin 5 → Nat) : String :=
  String.intercalate ":" ((mac_bytes rand).map hex2)

/-- `stealth_mode` of `stealth_tool.py`, after the console confirmation and
interface choice (the console is outside the controller).  Oracles:
`stopNMOk` = `run('systemctl stop NetworkManager')` succeeded;
`airmonAvailable` = `shutil.which('airmon-ng')`; `before`/`after` = the two
`detect_wireless_interfaces()` snapshots; `modeSwitchOk` = success of the
`airmon-ng start` / `iw set type monitor` command, whose result the source
discards (so it cannot influence the stored record). -/
def stealth_mode (disk : Option StealthState) (iface : String)
    (stopNMOk airmonAvailable : Bool) (before after : List String)
    (modeSwitchOk : Bool) : Option StealthState :=
  let s0 := loadRec disk
  let s1 := if stopNMOk then { s0 with networkmanager_stopped := some true } else s0
  if airmonAvailable then
    let monNew := (after.filter (fun a => !(before.contains a))).head?
    let mon := match monNew with
      | some a => if a = "" then iface ++ "mon" else a
      | none => iface ++ "mon"
    some { s1 with monitor_interface := some mon, original_interface := some iface }
  else
    some { s1 with monitor_interface := some iface, original_interface := some iface }

/-- `mac_spoof` of `stealth_tool.py`, after interface selection.  Oracles:
`readMac` = result of `get_current_mac(iface)` (`none` = unreadable, and
Python also treats an empty string as a failed read); `rand` = the random
draws of `generate_random_mac`; `macchangerAvailable` and `setAddrOk`
( success of the address-setting command) are discarded by the source. -/
def mac_spoof (disk : Option StealthState) (iface : String)
    (readMac : Option String) (rand : Fin 5 → Nat)
    (macchangerAvailable setAddrOk : Bool) : Option StealthState :=
  let s0 := loadRec disk
  let origs0 := s0.original_macs.getD []
  let s1 := { s0 with original_macs := some origs0 }
  let s2 :=
    if (lookupKey iface origs0).isNone then
      match readMac with
      | some orig =>
        if orig = "" then s1
        else { s1 with original_macs := some (setKey iface orig origs0) }
      | none => s1
    else s1
  let newMac := generate_random_mac rand
  some { s2 with spoofed_macs := some (setKey iface newMac (s2.spoofed_macs.getD [])) }

/-- A sequence of mac_spoof invocations on the same interface, one tuple
(readMac, rand, macchangerAvailable, setAddrOk) of oracle outcomes per
call, with no intervening state clear. -/
def mac_spoof_calls (disk : Option StealthState) (iface : String)
    (calls : List (Option String × (Fin 5 → Nat) × Bool × Bool)) :
    Option StealthState :=
  calls.foldl (fun d c => mac_spoof d iface c.1 c.2.1 c.2.2.1 c.2.2.2) disk

/-- `restore_changes` of `stealth_tool.py`.  The MAC-restore loop, the
monitor-stop commands and the NetworkManager restart only invoke commands
and never write to `state`; the record changes are: early return on an
empty record, `monitor_left = True` plus save on the keep branch, and
`clear_state()` otherwise.  `stopMonitor` = the operator answered yes to
stopping monitor mode (so the claim parameter keepMonitorMode is its
negation). -/
def restore_changes (disk : Option StealthState) (stopMonitor : Bool) :
    Option StealthState :=
  let s := loadRec disk
  if s.isEmpty then disk
  else if strTruthy s.monitor_interface then
    if stopMonitor then none
    else some { s with monitor_left := some true }
  else none

/-- `restore_monitor_only` of `stealth_tool.py`: early return on an empty
record; `clear_state()` plus return when no monitor interface is recorded;
otherwise monitor-stop commands, optional NetworkManager restart, and an
unconditional `clear_state()`. -/
def restore_monitor_only (disk : Option StealthState) : Option StealthState :=
  let s := loadRec disk
  if s.isEmpty then disk
  else if strTruthy s.monitor_interface then none
  else none

/-- JSON values, the possible results of `json.loads` on the state file. -/
inductive Json where
  | null : Json
  | bool (b : Bool) : Json
  | num (n : Int) : Json
  | str (s : String) : Json
  | arr (elems : List Json) : Json
  | obj (fields : List (String × Json)) : Json

/-- `load_state` of `stealth_tool.py` at the JSON level.  The disk is
`none` when `STATE_FILE.exists()` is false, and otherwise carries the
outcome of `json.loads(STATE_FILE.read_text())`: `Except.error` when the
library raised (caught, yielding the empty dict), `Except.ok v` when it
parsed to the value `v`, which the source returns unchanged. -/
def load_state (disk : Option (Except Unit Json)) : Json :=
  match disk with
  | none => Json.obj []
  | some (Except.error _) => Json.obj []
  | some (Except.ok v) => v

/-- `save_state` of `stealth_tool.py` at the JSON level: on a successful
write the file holds `json.dumps(state)`, which `json.loads` parses back
to an equal value (the json library round-trips objects, strings, bools
and ints); a failed write is caught and leaves the previous disk content. -/
def save_state (writeOk : Bool) (disk : Option (Except Unit Json)) (s : Json) :
    Option (Except Unit Json) :=
  if writeOk then some (Except.ok s) else disk

/-- A fixed all-zero random draw, used to evaluate the embedding on
concrete inputs. -/
def zeroRand : Fin 5 → Nat := fun _ => 0

/-- A persisted record left by a stealth-mode application followed by a
MAC spoof: both monitor-mode fields and both MAC maps are present. -/
def residualDisk : Option StealthState :=
  some { networkmanager_stopped := some true
         monitor_interface := some "wlan0mon"
         original_interface := some "wlan0"
         original_macs := some [("wlan0", "00:11:22:33:44:55")]
         spoofed_macs := some [("wlan0", "02:aa:bb:cc:dd:ee")] }

/-- First of two successive spoofs of `wlan0`: the hardware-address read
failed, so no original address is captured. -/
def spoofStep1 : Option StealthState :=
  mac_spoof none "wlan0" none zeroRand false true

/-- Second spoof of `wlan0`: the read now succeeds and observes the
address applied by the first spoof. -/
def spoofStep2 : Option StealthState :=
  mac_spoof spoofStep1 "wlan0" (some "02:00:00:00:00:00") zeroRand false true

theorem lookupKey_setKey (k v : String) (l : List (String × String)) :
    lookupKey k (setKey k v l) = some v := by
  induction l with
  | nil => simp [setKey, lookupKey]
  | cons hd tl ih =>
    obtain ⟨k1, v1⟩ := hd
    by_cases h : k1 = k
    · simp [setKey, lookupKey, h]
    · simp [setKey, lookupKey, h, ih]

theorem isEmpty_false_of_monitor (s : StealthState)
    (h : strTruthy s.monitor_interface = true) : s.isEmpty = false := by
  cases hm : s.monitor_interface with
  | none => rw [hm] at h; simp [strTruthy] at h
  | some v => simp [StealthState.isEmpty, hm]

/-- C1: RestoreAll (restore_changes) deletes the persisted record exactly
when the stop-monitor branch was taken or no monitor interface was
recorded in the starting state; with a recorded monitor interface and the
operator keeping monitor mode, the record is retained.  The hypothesis
excludes a present-but-empty record, which the tool itself never writes
(every save stores at least one key). -/
theorem restore_changes_clear_iff (disk : Option StealthState) (stopMonitor : Bool)
    (h : (loadRec disk).isEmpty = false ∨ disk = none) :
    restore_changes disk stopMonitor = none ↔
      ((strTruthy (loadRec disk).monitor_interface && stopMonitor) = true ∨
        strTruthy (loadRec disk).monitor_interface = false) := by
  rcases h with h | h
  · rw [restore_changes]
    simp only [h]
    cases hmon : strTruthy (loadRec disk).monitor_interface <;>
      cases stopMonitor <;> simp [hmon]
  · subst h
    cases stopMonitor <;> decide

/-- Witness for C1 at a record with no monitor interface: the record is
cleared. -/
theorem restore_changes_clear_iff_w :
    restore_changes (some { networkmanager_stopped := some true }) true = none :=
  (restore_changes_clear_iff (some { networkmanager_stopped := some true }) true
    (Or.inl (by decide))).mpr (Or.inr (by decide))

/-- C3: restore_monitor_only always terminates with the persisted record
empty, for every starting state including the empty/default record (where
it returns immediately, leaving nothing recorded). -/
theorem restore_monitor_only_clears (disk : Option StealthState) :
    (loadRec (restore_monitor_only disk)).isEmpty = true := by
  rw [restore_monitor_only]
  by_cases h : (loadRec disk).isEmpty
  · simp [h]
  · simp only [Bool.not_eq_true] at h
    simp [h]
    decide

/-- C7: every address the random generator produces has first octet 0x02,
whose multicast bit (bit 0) is 0 and locally-administered bit (bit 1) is
1, for all possible random draws. -/
theorem generate_random_mac_flags (rand : Fin 5 → Nat) :
    (mac_bytes rand).headD 0 = 2 ∧
    (mac_bytes rand).headD 0 % 2 = 0 ∧
    ((mac_bytes rand).headD 0 / 2) % 2 = 1 := by
  refine ⟨rfl, ?_, ?_⟩ <;> simp [mac_bytes]

/-- C8 counterexample: a state file whose content parses as the JSON
number 5 (valid JSON, not a valid record) makes load_state return that
number verbatim, not the empty/default record. -/
theorem load_state_nonobject_counterexample :
    load_state (some (Except.ok (Json.num 5))) = Json.num 5 ∧
      Json.num 5 ≠ Json.obj [] :=
  ⟨rfl, fun h => Json.noConfusion h⟩

/-- C8 amended: load_state is total (the source catches every parse
error); it returns the empty record when the file is absent or its
content fails to parse as JSON, but content that parses as non-record
JSON is returned verbatim rather than normalised to the empty record. -/
theorem load_state_characterization (e : Unit) (v : Json) :
    load_state none = Json.obj [] ∧
    load_state (some (Except.error e)) = Json.obj [] ∧
    load_state (some (Except.ok v)) = v :=
  ⟨rfl, rfl, rfl⟩

/-- C9: if the write succeeded, a save followed by a load returns the
saved record unchanged, for every JSON record and every prior disk
content. -/
theorem save_load_roundtrip (disk : Option (Except Unit Json)) (s : Json)
    (writeOk : Bool) (h : writeOk = true) :
    load_state (save_state writeOk disk s) = s := by
  subst h; rfl

/-- Witness for C9 on a concrete one-field record. -/
theorem save_load_roundtrip_w :
    load_state (save_state true none
        (Json.obj [("monitor_interface", Json.str "wlan0mon")])) =
      Json.obj [("monitor_interface", Json.str "wlan0mon")] :=
  save_load_roundtrip none (Json.obj [("monitor_interface", Json.str "wlan0mon")])
    true rfl

/-- C2 counterexample: with the mode-switch command failed (last argument
false) stealth_mode still persists monitor_interface, and with the
address-setting command failed mac_spoof still persists the spoofed MAC —
fields are recorded for actions that were invoked but failed. -/
theorem failed_action_persisted_counterexample :
    (loadRec (stealth_mode none "wlan0" true true ["wlan0"] ["wlan0"] false)).monitor_interface
        = some "wlan0mon" ∧
      lookupKey "wlan0"
          ((loadRec (mac_spoof none "wlan0" none zeroRand false false)).spoofed_macs.getD [])
        = some "02:00:00:00:00:00" := by
  constructor <;> decide

/-- C2 amended: on failure the controller continues, and it persists
networkmanager_stopped only when the service-stop command succeeded; but
monitor_interface and the spoofed-MAC entry are persisted regardless of
whether the mode-switch or address-setting command succeeded, because the
source discards those commands' results. -/
theorem failed_actions_still_persisted (disk : Option StealthState) (iface : String)
    (stopOk airmon mswOk : Bool) (before after : List String)
    (readMac : Option String) (rand : Fin 5 → Nat) (mch setOk : Bool) :
    ((loadRec (stealth_mode disk iface stopOk airmon before after mswOk)).networkmanager_stopped
        = if stopOk then some true else (loadRec disk).networkmanager_stopped) ∧
    (loadRec (stealth_mode disk iface stopOk airmon before after mswOk)).monitor_interface ≠ none ∧
    lookupKey iface ((loadRec (mac_spoof disk iface readMac rand mch setOk)).spoofed_macs.getD [])
        = some (generate_random_mac rand) := by
  refine ⟨?_, ?_, ?_⟩
  · cases airmon <;> cases stopOk <;> simp [stealth_mode, loadRec]
  · cases airmon <;> simp [stealth_mode, loadRec]
  · by_cases h1 : (lookupKey iface (((loadRec disk).original_macs).getD [])).isNone
    · cases readMac with
      | none => simp [mac_spoof, loadRec, h1, lookupKey_setKey] at h1 ⊢
      | some orig =>
        by_cases h2 : orig = "" <;>
          simp [mac_spoof, loadRec, h1, h2, lookupKey_setKey] at h1 ⊢
    · simp [mac_spoof, loadRec, h1, lookupKey_setKey] at h1 ⊢

/-- C4 counterexample: delegated (airmon-ng) path where re-enumeration
finds no new interface — the recorded monitor interface is
"wlan0" ++ "mon", not the target interface "wlan0". -/
theorem monitor_fallback_counterexample :
    (loadRec (stealth_mode none "wlan0" true true ["wlan0"] ["wlan0"] true)).monitor_interface
        = some "wlan0mon" ∧
      (some "wlan0mon" : Option String) ≠ some "wlan0" := by
  constructor <;> decide

/-- C4 amended: the monitor-interface name is the first interface present
after the mode switch but absent before; when no (nonempty-named) new
interface exists, the manual path records targetInterface but the
delegated path records targetInterface with "mon" appended. -/
theorem stealth_mode_monitor_name (disk : Option StealthState) (iface : String)
    (stopOk mswOk : Bool) (before after : List String) :
    ((after.filter (fun a => !(before.contains a))).head? = none →
        (loadRec (stealth_mode disk iface stopOk true before after mswOk)).monitor_interface
            = some (iface ++ "mon") ∧
        (loadRec (stealth_mode disk iface stopOk false before after mswOk)).monitor_interface
            = some iface) ∧
    (∀ a, (after.filter (fun a => !(before.contains a))).head? = some a → a ≠ "" →
        (loadRec (stealth_mode disk iface stopOk true before after mswOk)).monitor_interface
            = some a) := by
  constructor
  · intro hnone
    constructor <;>
      (simp only [stealth_mode, hnone]; simp [loadRec])
  · intro a ha hne
    simp only [stealth_mode, ha]
    simp [loadRec, hne]

/-- Witness for C4 applied on both branches: no new interface appears
(fallback name) and a new interface "wlan0mon" appears (it is taken). -/
theorem stealth_mode_monitor_name_w :
    (loadRec (stealth_mode none "wlan0" true true ["wlan0"] ["wlan0"] true)).monitor_interface
        = some ("wlan0" ++ "mon") ∧
      (loadRec (stealth_mode none "wlan0" true true ["wlan0"] ["wlan0", "wlan0mon"] true)).monitor_interface
        = some "wlan0mon" := by
  constructor
  · exact ((stealth_mode_monitor_name none "wlan0" true true ["wlan0"] ["wlan0"]).1
      (by decide)).1
  · exact (stealth_mode_monitor_name none "wlan0" true true ["wlan0"] ["wlan0", "wlan0mon"]).2
      "wlan0mon" (by decide) (by decide)

/-- C5 counterexample: restore with the operator keeping monitor mode, on
a record holding MAC-spoof fields — the resulting record still contains
both MAC maps (alongside monitor_left), so it is not a minimal residual
record of monitor-mode fields only. -/
theorem restore_keep_residual_counterexample :
    (loadRec (restore_changes residualDisk false)).spoofed_macs
        = some [("wlan0", "02:aa:bb:cc:dd:ee")] ∧
      (loadRec (restore_changes residualDisk false)).original_macs
        = some [("wlan0", "00:11:22:33:44:55")] ∧
      (loadRec (restore_changes residualDisk false)).monitor_left = some true := by
  refine ⟨?_, ?_, ?_⟩ <;> decide

/-- C5 amended: with a recorded monitor interface and keepMonitorMode
chosen, restore_changes sets monitor_left, persists, and skips both the
monitor restore and the clear — the resulting record is the starting
record with monitor_left added, every other field (including the
MAC-spoof maps) retained unchanged. -/
theorem restore_keep_preserves_record (disk : Option StealthState)
    (h : strTruthy (loadRec disk).monitor_interface = true) :
    restore_changes disk false = some { loadRec disk with monitor_left := some true } := by
  have hne := isEmpty_false_of_monitor (loadRec disk) h
  simp [restore_changes, hne, h]

/-- Witness for C5 amended on the residual record. -/
theorem restore_keep_preserves_record_w :
    restore_changes residualDisk false
      = some { loadRec residualDisk with monitor_left := some true } :=
  restore_keep_preserves_record residualDisk (by decide)

/-- Any mac_spoof call leaves an already-captured original MAC entry
unchanged: the capture branch only runs when the entry is absent. -/
theorem mac_spoof_keeps_original (d : Option StealthState) (iface : String)
    (readMac : Option String) (rand : Fin 5 → Nat) (mch setOk : Bool) (m : String)
    (h : lookupKey iface ((loadRec d).original_macs.getD []) = some m) :
    lookupKey iface
        ((loadRec (mac_spoof d iface readMac rand mch setOk)).original_macs.getD [])
      = some m := by
  simp only [loadRec] at h
  simp [mac_spoof, loadRec, h]

/-- C6 counterexample: two spoofs of the same interface with no clear in
between; the first call's hardware-address read fails (entry left unset),
the second call's read succeeds, so the original-MAC entry after the
second call differs from its value after the first call and records an
address observed after the first spoof. -/
theorem original_mac_recapture_counterexample :
    lookupKey "wlan0" ((loadRec spoofStep1).original_macs.getD []) = none ∧
      lookupKey "wlan0" ((loadRec spoofStep2).original_macs.getD [])
        = some "02:00:00:00:00:00" := by
  constructor <;> decide

/-- C6 amended: when the first call's address read succeeds (returning a
nonempty address m), that call captures m, and any number of further
mac_spoof calls on the interface without an intervening clear leave the
original-MAC entry equal to m — once set, the entry is never
overwritten. -/
theorem mac_spoof_original_set_once (disk : Option StealthState) (iface m : String)
    (rand1 : Fin 5 → Nat) (mch1 set1 : Bool)
    (calls : List (Option String × (Fin 5 → Nat) × Bool × Bool))
    (h0 : lookupKey iface ((loadRec disk).original_macs.getD []) = none)
    (hm : m ≠ "") :
    lookupKey iface
        ((loadRec (mac_spoof_calls (mac_spoof disk iface (some m) rand1 mch1 set1)
            iface calls)).original_macs.getD [])
      = some m := by
  have step1 : lookupKey iface
      ((loadRec (mac_spoof disk iface (some m) rand1 mch1 set1)).original_macs.getD [])
        = some m := by
    simp only [loadRec] at h0
    simp [mac_spoof, loadRec, h0, hm, lookupKey_setKey]
  have hgen : ∀ d, lookupKey iface ((loadRec d).original_macs.getD []) = some m →
      lookupKey iface
          ((loadRec (mac_spoof_calls d iface calls)).original_macs.getD []) = some m := by
    induction calls with
    | nil => intro d hd; simpa [mac_spoof_calls] using hd
    | cons c tl ih =>
      intro d hd
      have h2 := mac_spoof_keeps_original d iface c.1 c.2.1 c.2.2.1 c.2.2.2 m hd
      simpa [mac_spoof_calls, List.foldl] using ih _ h2
  exact hgen _ step1

/-- Witness for C6 amended: first call captures the pre-spoof address,
two further calls (one failed read, one reading a different address)
leave it unchanged. -/
theorem mac_spoof_original_set_once_w :
    lookupKey "wlan0"
        ((loadRec (mac_spoof_calls
            (mac_spoof none "wlan0" (some "00:11:22:33:44:55") zeroRand false true)
            "wlan0"
            [(none, zeroRand, false, true),
             (some "aa:aa:aa:aa:aa:aa", zeroRand, true, true)])).original_macs.getD [])
      = some "00:11:22:33:44:55" :=
  mac_spoof_original_set_once none "wlan0" "00:11:22:33:44:55" zeroRand false true
    [(none, zeroRand, false, true), (some "aa:aa:aa:aa:aa:aa", zeroRand, true, true)]
    (by decide) (by decide)

/-- C10: when the hardware-address read returns nothing mac_spoof does not
abort: it records the freshly generated address under spoofed_macs while
the original-MAC entry for that interface stays unset — a spoofed
interface with no recorded original address is a reachable persisted
state. -/
theorem mac_spoof_read_failure (disk : Option StealthState) (iface : String)
    (rand : Fin 5 → Nat) (mch setOk : Bool)
    (h0 : lookupKey iface ((loadRec disk).original_macs.getD []) = none) :
    lookupKey iface
        ((loadRec (mac_spoof disk iface none rand mch setOk)).spoofed_macs.getD [])
      = some (generate_random_mac rand) ∧
    lookupKey iface
        ((loadRec (mac_spoof disk iface none rand mch setOk)).original_macs.getD [])
      = none := by
  simp only [loadRec] at h0
  constructor <;> simp [mac_spoof, loadRec, h0, lookupKey_setKey]

/-- Witness for C10 starting from the empty record. -/
theorem mac_spoof_read_failure_w :
    lookupKey "wlan0"
        ((loadRec (mac_spoof none "wlan0" none zeroRand false false)).spoofed_macs.getD [])
      = some (generate_random_mac zeroRand) ∧
    lookupKey "wlan0"
        ((loadRec (mac_spoof none "wlan0" none zeroRand false false)).original_macs.getD [])
      = none :=
  mac_spoof_read_failure none "wlan0" zeroRand false false (by decide)
